import Mathlib

/-!
Verification of the caddy-dnslink routing module (o8is/caddy-dnslink).

The embedding below mirrors `src/dnslink.go`:

* `serveRewrite` is the inline path-rewrite performed by `ServeHTTP`
  (lines 104-127): pick the replacement base for the matched prefix (or the
  prefix itself), ensure it ends with `/`, append the identifier, ensure the
  concatenation ends with `/`, then append the original path stripped of at
  most one leading `/` (Go `strings.TrimPrefix(originalPath, "/")`).
* `resolveGo` is `DNSLink.resolve` (lines 139-175): consult the cache, serve
  a fresh entry without any DNS call, lazily delete an expired entry, invoke
  the DNS collaborator, swallow collaborator errors (returning an empty
  result with no error and caching nothing), otherwise select the first
  namespace in iteration order with a candidate and cache the choice with
  expiry `now + cacheTTL` taken at the moment of the write.
* `decideServe` is the routing decision of `ServeHTTP` (lines 81-137):
  resolve the host, pass through on error or empty namespace, look up
  `"/" ++ namespace` among the configured upstream prefixes, and on a match
  rewrite the path with `serveRewrite`.

Go strings are modelled by Lean `String`; the Go calls
`strings.HasSuffix(s, "/")` and `strings.TrimPrefix(s, "/")` are modelled on
the character list (UTF-8 never encodes `/` inside a multibyte character, so
the byte-level and character-level views agree). Wall-clock instants are
natural numbers; the Go map `result.Links` is presented to `resolveGo` in its
(randomized, run-dependent) iteration order as an association list. The DNS
collaborator outcome is a parameter: an error string or a link table.
-/

/-- Model of Go `strings.HasSuffix(s, "/")`: the last character is `/`. -/
def goHasSuffixSlash (s : String) : Bool :=
  match s.data.getLast? with
  | some c => c = '/'
  | none => false

/-- Model of Go `strings.TrimPrefix(s, "/")`: remove one leading `/` if present. -/
def goTrimLeadSlash (s : String) : String :=
  match s with
  | ⟨'/' :: rest⟩ => ⟨rest⟩
  | s => s

/-- Go `if !strings.HasSuffix(s, "/") { s += "/" }`. -/
def ensureTrailSlash (s : String) : String :=
  if goHasSuffixSlash s then s else s ++ "/"

/-- The cache value type `cachedLookup` of dnslink.go (namespace, identifier,
absolute expiry instant). -/
structure CachedLookup where
  ns : String
  identifier : String
  expiresAt : Nat
deriving DecidableEq, Repr

/-- The `sync.Map` cache, modelled as an association list keyed by host. -/
abbrev Cache := List (String × CachedLookup)

/-- `d.cache.Load(host)`. -/
def cacheLoad (c : Cache) (host : String) : Option CachedLookup :=
  List.lookup host c

/-- `d.cache.Delete(host)`. -/
def cacheDelete (c : Cache) (host : String) : Cache :=
  List.filter (fun p => p.1 ≠ host) c

/-- `d.cache.Store(host, entry)`. -/
def cacheStore (c : Cache) (host : String) (e : CachedLookup) : Cache :=
  (host, e) :: cacheDelete c host

/-- Outcome of the DNS collaborator call `dnslinkpkg.Resolve(host)`: either a
transport/protocol error, or a link table `result.Links` given in the
iteration order of the Go map. "No DNSLink present" is the normal negative
outcome: an `ok` table with no namespace holding a candidate. -/
inductive DNSOutcome where
  | err (msg : String)
  | ok (links : List (String × List String))
deriving DecidableEq, Repr

/-- The link-selection loop of `resolve` (lines 157-165): the first namespace
in iteration order with at least one entry wins, together with its first
candidate identifier; otherwise both components stay empty. -/
def selectLink : List (String × List String) → String × String
  | [] => ("", "")
  | (ns, e :: _) :: _ => (ns, e)
  | (_, []) :: rest => selectLink rest

/-- Result of one `resolve` call: the returned triple, the cache afterwards,
and whether the DNS collaborator was invoked. -/
structure ResolveResult where
  ns : String
  identifier : String
  err : Option String
  cache : Cache
  dnsCalled : Bool
deriving DecidableEq, Repr

/-- The cache-miss tail of `resolve` (lines 148-174): call the collaborator;
on error return empty strings with `nil` error and cache nothing; on success
select a link and store it with expiry `tWrite + ttl`, `tWrite` being the
wall-clock instant of the cache write. -/
def resolveMiss (c : Cache) (ttl : Nat) (host : String) (tWrite : Nat)
    (dns : DNSOutcome) : ResolveResult :=
  match dns with
  | .err _ => ⟨"", "", none, c, true⟩
  | .ok links =>
      let sel := selectLink links
      ⟨sel.1, sel.2, none,
        cacheStore c host ⟨sel.1, sel.2, tWrite + ttl⟩, true⟩

/-- `DNSLink.resolve` (lines 139-175). `tCheck` is the wall-clock instant of
the freshness check `time.Now().Before(entry.expiresAt)`, `tWrite` the
instant of the later `time.Now().Add(d.CacheTTL)` at the cache write. -/
def resolveGo (c : Cache) (ttl : Nat) (host : String) (tCheck tWrite : Nat)
    (dns : DNSOutcome) : ResolveResult :=
  match cacheLoad c host with
  | some entry =>
      if tCheck < entry.expiresAt then
        ⟨entry.ns, entry.identifier, none, c, false⟩
      else
        resolveMiss (cacheDelete c host) ttl host tWrite dns
  | none => resolveMiss c ttl host tWrite dns

/-- The inline path rewrite of `ServeHTTP` (lines 104-127). `pfx` is
`"/" + namespace`; `repls` is the `Replacements` table. -/
def serveRewrite (pfx : String) (repls : List (String × String))
    (identifier originalPath : String) : String :=
  let base :=
    match List.lookup pfx repls with
    | some replacement => replacement
    | none => pfx
  let base2 := ensureTrailSlash base
  let newPath := ensureTrailSlash (base2 ++ identifier)
  newPath ++ goTrimLeadSlash originalPath

/-- The rewritten path before the original path is appended: the value of
`newPath` at line 122 of dnslink.go, which does not depend on the request
path. -/
def pathRoot (pfx : String) (repls : List (String × String))
    (identifier : String) : String :=
  let base :=
    match List.lookup pfx repls with
    | some replacement => replacement
    | none => pfx
  ensureTrailSlash (ensureTrailSlash base ++ identifier)

/-- A routing decision: pass through, or forward to an upstream with a
rewritten path. -/
inductive RoutingDecision where
  | noMatch
  | matched (upstreamKey : String) (rewrittenPath : String)
deriving DecidableEq, Repr

/-- Result of one `ServeHTTP` decision: the decision, the cache afterwards,
whether the DNS collaborator was invoked. -/
structure DecideResult where
  decision : RoutingDecision
  cache : Cache
  dnsCalled : Bool
deriving DecidableEq, Repr

/-- The decision logic of `ServeHTTP` (lines 81-137): resolve the host; on a
(hypothetical) resolver error or an empty namespace pass through; otherwise
look up `"/" ++ namespace` among the configured upstreams and on a hit
forward with the rewritten path, else pass through. `ups` is the `Upstreams`
table (whose keys are exactly the provisioned proxy prefixes). -/
def decideServe (ups repls : List (String × String)) (c : Cache) (ttl : Nat)
    (host path : String) (tCheck tWrite : Nat) (dns : DNSOutcome) :
    DecideResult :=
  let r := resolveGo c ttl host tCheck tWrite dns
  match r.err with
  | some _ => ⟨.noMatch, r.cache, r.dnsCalled⟩
  | none =>
      if r.ns = "" then ⟨.noMatch, r.cache, r.dnsCalled⟩
      else
        match List.lookup ("/" ++ r.ns) ups with
        | some upstream =>
            ⟨.matched upstream (serveRewrite ("/" ++ r.ns) repls r.identifier path),
              r.cache, r.dnsCalled⟩
        | none => ⟨.noMatch, r.cache, r.dnsCalled⟩

/-- Modelled from the spec: the repository's `buildPath` helper is exercised
by `TestBuildPath` in src/dnslink_test.go but its defining Go file is not
under src/. Following spec section 4.3: the base is the replacement when one
is configured (an empty replacement argument means "use `/` + namespace"),
normalized to end in `/`; the identifier loses a single trailing `/`; the
concatenation is normalized to end in `/`; the original path loses at most
one leading `/` and is appended. -/
def buildPath (ns identifier replacement originalPath : String) : String :=
  let base := if replacement = "" then "/" ++ ns else replacement
  let ident :=
    if goHasSuffixSlash identifier then ⟨identifier.data.dropLast⟩ else identifier
  ensureTrailSlash (ensureTrailSlash base ++ ident) ++ goTrimLeadSlash originalPath

/-! Helper lemmas about the Go string primitives. -/

theorem goHasSuffixSlash_append_slash (a : String) :
    goHasSuffixSlash (a ++ "/") = true := by
  simp [goHasSuffixSlash, String.data_append, List.getLast?_append]

theorem goHasSuffixSlash_append_of_ne_nil (a b : String) (h : b.data ≠ []) :
    goHasSuffixSlash (a ++ b) = goHasSuffixSlash b := by
  obtain ⟨c, hc⟩ : ∃ c, b.data.getLast? = some c := by
    cases hg : b.data.getLast? with
    | none => exact absurd (List.getLast?_eq_none_iff.mp hg) h
    | some c => exact ⟨c, rfl⟩
  simp [goHasSuffixSlash, String.data_append, List.getLast?_append, hc]

theorem goTrimLeadSlash_slash_append (s : String) :
    goTrimLeadSlash ("/" ++ s) = s := by
  cases s with
  | mk d => rfl

theorem goTrimLeadSlash_empty : goTrimLeadSlash "" = "" := rfl

theorem goTrimLeadSlash_single_slash : goTrimLeadSlash "/" = "" := rfl

theorem ensureTrailSlash_append_slash (a : String) :
    ensureTrailSlash (a ++ "/") = a ++ "/" := by
  simp [ensureTrailSlash, goHasSuffixSlash_append_slash]

/-- Core of the trailing-slash analysis: appending `/` to an identifier whose
last character is not already `/` lands on the same `newPath` value that the
rewrite's own trailing-slash normalization produces. -/
theorem ensureTrailSlash_append_trailing (b2 s : String) (h1 : s.data ≠ [])
    (h2 : s.data.getLast? ≠ some '/') :
    ensureTrailSlash (b2 ++ (s ++ "/")) = ensureTrailSlash (b2 ++ s) := by
  have hL : goHasSuffixSlash (b2 ++ (s ++ "/")) = true := by
    rw [goHasSuffixSlash_append_of_ne_nil b2 (s ++ "/")
      (by simp [String.data_append])]
    exact goHasSuffixSlash_append_slash s
  have hR : goHasSuffixSlash (b2 ++ s) = false := by
    rw [goHasSuffixSlash_append_of_ne_nil b2 s h1]
    obtain ⟨c, hc⟩ : ∃ c, s.data.getLast? = some c := by
      cases hg : s.data.getLast? with
      | none => exact absurd (List.getLast?_eq_none_iff.mp hg) h1
      | some c => exact ⟨c, rfl⟩
    have hcne : c ≠ '/' := fun hcc => h2 (hcc ▸ hc)
    simp [goHasSuffixSlash, hc, hcne]
  rw [ensureTrailSlash, ensureTrailSlash, hL, hR]
  simp [String.append_assoc]

/-- C1: the path rewriter produces exactly the spec's six reference outputs,
both for `buildPath` (empty replacement meaning base `/` + namespace) and for
the identical inline rewrite `ServeHTTP` applies on a match; and `ServeHTTP`
applies this rewrite to the forwarded request on a DNSLink match. -/
theorem c1_buildPath_reference_outputs :
    buildPath "swarm" "abc123" "/bzz" "/" = "/bzz/abc123/"
    ∧ buildPath "swarm" "abc123" "/bzz" "/index.html" = "/bzz/abc123/index.html"
    ∧ buildPath "ipfs" "QmXyz789" "" "/readme.md" = "/ipfs/QmXyz789/readme.md"
    ∧ buildPath "swarm" "abc123/" "/bzz" "/index.html" = "/bzz/abc123/index.html"
    ∧ buildPath "swarm" "abc123" "/bzz" "//index.html" = "/bzz/abc123//index.html"
    ∧ buildPath "swarm" "abc123" "bzz" "/index.html" = "bzz/abc123/index.html"
    ∧ serveRewrite "/swarm" [("/swarm", "/bzz")] "abc123" "/" = "/bzz/abc123/"
    ∧ serveRewrite "/swarm" [("/swarm", "/bzz")] "abc123" "/index.html"
        = "/bzz/abc123/index.html"
    ∧ serveRewrite "/ipfs" [] "QmXyz789" "/readme.md" = "/ipfs/QmXyz789/readme.md"
    ∧ serveRewrite "/swarm" [("/swarm", "/bzz")] "abc123/" "/index.html"
        = "/bzz/abc123/index.html"
    ∧ serveRewrite "/swarm" [("/swarm", "/bzz")] "abc123" "//index.html"
        = "/bzz/abc123//index.html"
    ∧ serveRewrite "/swarm" [("/swarm", "bzz")] "abc123" "/index.html"
        = "bzz/abc123/index.html"
    ∧ decideServe [("/swarm", "varnish:8080")] [("/swarm", "/bzz")] [] 60
        "example.com" "/" 0 0 (.ok [("swarm", ["abc123"])])
        = ⟨.matched "varnish:8080" "/bzz/abc123/",
            [("example.com", ⟨"swarm", "abc123", 60⟩)], true⟩ := by
  refine ⟨?_, ?_, ?_, ?_, ?_, ?_, ?_, ?_, ?_, ?_, ?_, ?_, ?_⟩ <;> decide

/-! Helper lemmas about the cache and the resolver. -/

theorem cacheLoad_store (c : Cache) (host : String) (e : CachedLookup) :
    cacheLoad (cacheStore c host e) host = some e := by
  simp [cacheLoad, cacheStore]

theorem cacheLoad_delete (c : Cache) (host : String) :
    cacheLoad (cacheDelete c host) host = none := by
  simp only [cacheLoad, cacheDelete, List.lookup_eq_none_iff]
  intro p hp
  have := List.of_mem_filter hp
  simp only [decide_eq_true_eq] at this
  simpa [bne] using fun hh => this hh.symm

theorem resolveMiss_err_none (c : Cache) (ttl : Nat) (host : String)
    (t : Nat) (dns : DNSOutcome) : (resolveMiss c ttl host t dns).err = none := by
  cases dns <;> rfl

theorem resolveMiss_dnsCalled (c : Cache) (ttl : Nat) (host : String)
    (t : Nat) (dns : DNSOutcome) :
    (resolveMiss c ttl host t dns).dnsCalled = true := by
  cases dns <;> rfl

theorem resolveGo_err_none (c : Cache) (ttl : Nat) (host : String)
    (t1 t2 : Nat) (dns : DNSOutcome) :
    (resolveGo c ttl host t1 t2 dns).err = none := by
  unfold resolveGo
  cases cacheLoad c host with
  | none => exact resolveMiss_err_none _ _ _ _ _
  | some entry =>
      dsimp only
      split
      · rfl
      · exact resolveMiss_err_none _ _ _ _ _

/-- If the DNS collaborator was invoked, `resolve` went through the
cache-miss tail, whose returned namespace and identifier do not depend on
the cache contents. -/
theorem resolveGo_ns_of_dnsCalled (c : Cache) (ttl : Nat) (host : String)
    (t1 t2 : Nat) (dns : DNSOutcome)
    (h : (resolveGo c ttl host t1 t2 dns).dnsCalled = true) :
    (resolveGo c ttl host t1 t2 dns).ns = (resolveMiss [] ttl host t2 dns).ns
    ∧ (resolveGo c ttl host t1 t2 dns).identifier
        = (resolveMiss [] ttl host t2 dns).identifier := by
  unfold resolveGo at *
  cases hL : cacheLoad c host with
  | none => cases dns <;> exact ⟨rfl, rfl⟩
  | some entry =>
      rw [hL] at h
      dsimp only at h ⊢
      by_cases hexp : t1 < entry.expiresAt
      · rw [if_pos hexp] at h
        simp at h
      · rw [if_neg hexp] at h ⊢
        cases dns <;> exact ⟨rfl, rfl⟩

/-- After a miss with a successful collaborator outcome, the cache holds the
selected link for the host, expiring at `tWrite + ttl`. -/
theorem resolveMiss_ok_cacheLoad (c : Cache) (ttl : Nat) (host : String)
    (t : Nat) (links : List (String × List String)) :
    cacheLoad (resolveMiss c ttl host t (.ok links)).cache host
      = some ⟨(selectLink links).1, (selectLink links).2, t + ttl⟩ := by
  exact cacheLoad_store _ _ _

theorem resolveGo_ok_cacheLoad_of_dnsCalled (c : Cache) (ttl : Nat)
    (host : String) (t1 t2 : Nat) (links : List (String × List String))
    (h : (resolveGo c ttl host t1 t2 (.ok links)).dnsCalled = true) :
    cacheLoad (resolveGo c ttl host t1 t2 (.ok links)).cache host
      = some ⟨(selectLink links).1, (selectLink links).2, t2 + ttl⟩ := by
  unfold resolveGo at *
  cases hL : cacheLoad c host with
  | none => exact resolveMiss_ok_cacheLoad _ _ _ _ _
  | some entry =>
      rw [hL] at h
      dsimp only at h ⊢
      by_cases hexp : t1 < entry.expiresAt
      · rw [if_pos hexp] at h
        simp at h
      · rw [if_neg hexp] at h ⊢
        exact resolveMiss_ok_cacheLoad _ _ _ _ _

/-- A fresh cache entry is returned as-is: no DNS call, cache untouched. -/
theorem resolveGo_fresh_hit (c : Cache) (ttl : Nat) (host : String)
    (t1 t2 : Nat) (dns : DNSOutcome) (entry : CachedLookup)
    (hload : cacheLoad c host = some entry) (hfresh : t1 < entry.expiresAt) :
    resolveGo c ttl host t1 t2 dns
      = ⟨entry.ns, entry.identifier, none, c, false⟩ := by
  unfold resolveGo
  rw [hload]
  simp [hfresh]

/-- An empty resolved namespace makes the decision pass through. -/
theorem decideServe_noMatch_of_ns_empty (ups repls : List (String × String))
    (c : Cache) (ttl : Nat) (host path : String) (t1 t2 : Nat)
    (dns : DNSOutcome) (h : (resolveGo c ttl host t1 t2 dns).ns = "") :
    (decideServe ups repls c ttl host path t1 t2 dns).decision = .noMatch := by
  simp only [decideServe]
  rw [resolveGo_err_none]
  simp [h]

/-- C6 counterexample: the trailing-slash collapse law fails on the code for
the identifier `"abc123//"`, which ends in `/`: removing its single trailing
`/` gives `"abc123/"`, yet the rewrite keeps the doubled slash for the former
and the two outputs differ — the code never strips the identifier, it only
appends `/` to `base ++ identifier` when absent. -/
theorem c6_counterexample_double_trailing_slash :
    "abc123//" = "abc123/" ++ "/"
    ∧ goHasSuffixSlash "abc123//" = true
    ∧ serveRewrite "/swarm" [("/swarm", "/bzz")] "abc123//" "/index.html"
        = "/bzz/abc123//index.html"
    ∧ serveRewrite "/swarm" [("/swarm", "/bzz")] "abc123/" "/index.html"
        = "/bzz/abc123/index.html"
    ∧ serveRewrite "/swarm" [("/swarm", "/bzz")] "abc123//" "/index.html"
        ≠ serveRewrite "/swarm" [("/swarm", "/bzz")] "abc123/" "/index.html"
    ∧ "abc123///" = "abc123//" ++ "/"
    ∧ buildPath "swarm" "abc123///" "/bzz" "/index.html"
        ≠ buildPath "swarm" "abc123//" "/bzz" "/index.html" := by
  refine ⟨?_, ?_, ?_, ?_, ?_, ?_, ?_⟩ <;> decide

/-- C6 amended: for every namespace prefix, replacement table and original
path, and every identifier ending in exactly one `/` (its remainder is
nonempty and does not itself end in `/`), the rewrite yields the same result
as for the identifier with the trailing `/` removed; the code achieves this
not by stripping the identifier but by appending `/` to `base ++ identifier`
only when the concatenation does not already end in `/`. -/
theorem c6_amended_trailing_slash_collapse (pfx : String)
    (repls : List (String × String)) (orig s : String) (h1 : s.data ≠ [])
    (h2 : s.data.getLast? ≠ some '/') :
    serveRewrite pfx repls (s ++ "/") orig = serveRewrite pfx repls s orig := by
  simp only [serveRewrite]
  rw [ensureTrailSlash_append_trailing _ _ h1 h2]

/-- Witness for the amended C6 at the identifier `"abc123/"`. -/
theorem c6_amended_witness :
    ("abc123" : String).data ≠ []
    ∧ ("abc123" : String).data.getLast? ≠ some '/'
    ∧ serveRewrite "/swarm" [("/swarm", "/bzz")] ("abc123" ++ "/") "/index.html"
        = serveRewrite "/swarm" [("/swarm", "/bzz")] "abc123" "/index.html" :=
  ⟨by decide, by decide,
    c6_amended_trailing_slash_collapse "/swarm" [("/swarm", "/bzz")]
      "/index.html" "abc123" (by decide) (by decide)⟩

/-- C7: the rewrite strips at most one leading `/` from the original path and
appends the remainder to the path root `base ++ identifier ++ "/"`; an empty
original path contributes nothing (and is equivalent to passing `"/"`), and
leading slashes beyond the first survive verbatim. -/
theorem c7_leading_slash_policy (pfx : String)
    (repls : List (String × String)) (identifier orig rest : String) :
    serveRewrite pfx repls identifier orig
      = pathRoot pfx repls identifier ++ goTrimLeadSlash orig
    ∧ serveRewrite pfx repls identifier "" = pathRoot pfx repls identifier
    ∧ serveRewrite pfx repls identifier ""
        = serveRewrite pfx repls identifier "/"
    ∧ serveRewrite pfx repls identifier ("/" ++ ("/" ++ rest))
        = pathRoot pfx repls identifier ++ ("/" ++ rest) := by
  refine ⟨rfl, ?_, ?_, ?_⟩
  · show pathRoot pfx repls identifier ++ goTrimLeadSlash "" = _
    rw [goTrimLeadSlash_empty, String.append_empty]
  · show pathRoot pfx repls identifier ++ goTrimLeadSlash ""
        = pathRoot pfx repls identifier ++ goTrimLeadSlash "/"
    rw [goTrimLeadSlash_empty, goTrimLeadSlash_single_slash]
  · show pathRoot pfx repls identifier
        ++ goTrimLeadSlash ("/" ++ ("/" ++ rest)) = _
    rw [goTrimLeadSlash_slash_append]

/-- C2: the routing decision fails open — a transport error from the DNS
collaborator, a "no link" outcome, or an empty resolved namespace all yield a
pass-through decision, and `resolve` never surfaces an error (its error
component is `none` for every input). -/
theorem c2_fail_open (ups repls : List (String × String)) (c : Cache)
    (ttl : Nat) (host path : String) (t1 t2 : Nat) (dns : DNSOutcome)
    (e : String) (links : List (String × List String)) :
    (resolveGo c ttl host t1 t2 dns).err = none
    ∧ ((resolveGo c ttl host t1 t2 dns).ns = "" →
        (decideServe ups repls c ttl host path t1 t2 dns).decision = .noMatch)
    ∧ ((resolveGo c ttl host t1 t2 (.err e)).dnsCalled = true →
        (decideServe ups repls c ttl host path t1 t2 (.err e)).decision
          = .noMatch)
    ∧ (selectLink links = ("", "") →
        (resolveGo c ttl host t1 t2 (.ok links)).dnsCalled = true →
        (decideServe ups repls c ttl host path t1 t2 (.ok links)).decision
          = .noMatch) := by
  refine ⟨resolveGo_err_none _ _ _ _ _ _,
    decideServe_noMatch_of_ns_empty _ _ _ _ _ _ _ _ _, ?_, ?_⟩
  · intro hcall
    refine decideServe_noMatch_of_ns_empty _ _ _ _ _ _ _ _ _ ?_
    exact (resolveGo_ns_of_dnsCalled _ _ _ _ _ _ hcall).1
  · intro hsel hcall
    refine decideServe_noMatch_of_ns_empty _ _ _ _ _ _ _ _ _ ?_
    rw [(resolveGo_ns_of_dnsCalled _ _ _ _ _ _ hcall).1]
    simp [resolveMiss, hsel]

/-- Witness for C2 on a concrete erroring lookup and a concrete linkless
lookup against an empty cache. -/
theorem c2_fail_open_witness :
    (resolveGo [] 60 "example.com" 0 0 (.err "timeout")).err = none
    ∧ (decideServe [("/swarm", "varnish:8080")] [] [] 60 "example.com" "/" 0 0
        (.err "timeout")).decision = .noMatch
    ∧ (decideServe [("/swarm", "varnish:8080")] [] [] 60 "example.com" "/" 0 0
        (.ok [])).decision = .noMatch := by
  refine ⟨(c2_fail_open [] [] [] 60 "example.com" "/" 0 0 (.err "timeout")
    "timeout" []).1, ?_, ?_⟩
  · exact (c2_fail_open [("/swarm", "varnish:8080")] [] [] 60 "example.com"
      "/" 0 0 (.err "timeout") "timeout" []).2.2.1 (by decide)
  · exact (c2_fail_open [("/swarm", "varnish:8080")] [] [] 60 "example.com"
      "/" 0 0 (.ok []) "timeout" []).2.2.2 (by decide) (by decide)

/-- C3: a collaborator outcome with no DNSLink present makes `resolve` cache
the empty-namespace sentinel for the host expiring a full TTL after the
write, returning it with no error; any later resolution of the host within
the TTL is served from the cache with no DNS call and decides to pass
through. -/
theorem c3_negative_cache (ups repls : List (String × String)) (c : Cache)
    (ttl : Nat) (host path : String) (t2 t3 t4 : Nat)
    (links : List (String × List String)) (dns2 : DNSOutcome)
    (hnl : selectLink links = ("", "")) (httl : t3 < t2 + ttl) :
    resolveMiss c ttl host t2 (.ok links)
      = ⟨"", "", none, cacheStore c host ⟨"", "", t2 + ttl⟩, true⟩
    ∧ cacheLoad (resolveMiss c ttl host t2 (.ok links)).cache host
        = some ⟨"", "", t2 + ttl⟩
    ∧ resolveGo (resolveMiss c ttl host t2 (.ok links)).cache ttl host t3 t4
        dns2
        = ⟨"", "", none, (resolveMiss c ttl host t2 (.ok links)).cache, false⟩
    ∧ (decideServe ups repls (resolveMiss c ttl host t2 (.ok links)).cache
        ttl host path t3 t4 dns2).decision = .noMatch := by
  have h1 : resolveMiss c ttl host t2 (.ok links)
      = ⟨"", "", none, cacheStore c host ⟨"", "", t2 + ttl⟩, true⟩ := by
    simp [resolveMiss, hnl]
  have h2 : cacheLoad (resolveMiss c ttl host t2 (.ok links)).cache host
      = some ⟨"", "", t2 + ttl⟩ := by
    rw [h1]
    exact cacheLoad_store _ _ _
  have h3 : resolveGo (resolveMiss c ttl host t2 (.ok links)).cache ttl host
      t3 t4 dns2
      = ⟨"", "", none, (resolveMiss c ttl host t2 (.ok links)).cache,
          false⟩ :=
    resolveGo_fresh_hit _ _ _ _ _ _ _ h2 httl
  refine ⟨h1, h2, h3, ?_⟩
  refine decideServe_noMatch_of_ns_empty _ _ _ _ _ _ _ _ _ ?_
  rw [h3]

/-- Witness for C3 at a concrete linkless lookup. -/
theorem c3_negative_cache_witness :
    resolveMiss [] 60 "nolink.example" 100 (.ok [("swarm", [])])
      = ⟨"", "", none, [("nolink.example", ⟨"", "", 160⟩)], true⟩
    ∧ resolveGo [("nolink.example", ⟨"", "", 160⟩)] 60 "nolink.example" 159 159
        (.err "timeout")
        = ⟨"", "", none, [("nolink.example", ⟨"", "", 160⟩)], false⟩ := by
  have h := c3_negative_cache [] [] [] 60 "nolink.example" "/" 100 159 159
    [("swarm", [])] (.err "timeout") (by decide) (by decide)
  exact ⟨h.1, by
    have := h.2.2.1
    rw [h.1] at this
    exact this⟩

/-- C4 counterexample: on a transport failure of the collaborator, `resolve`
does not return the error to its caller — it swallows it, returning empty
strings with a `nil` error (the claim that the error is not swallowed inside
`resolve` is false of the code; only the "stores nothing" half holds). -/
theorem c4_counterexample_error_swallowed :
    resolveMiss [] 60 "example.com" 0 (.err "lookup timeout")
      = ⟨"", "", none, [], true⟩
    ∧ (resolveMiss [] 60 "example.com" 0 (.err "lookup timeout")).err
        ≠ some "lookup timeout"
    ∧ (resolveGo [] 60 "example.com" 0 0 (.err "lookup timeout")).err
        = none := by
  refine ⟨?_, ?_, ?_⟩ <;> decide

/-- C4 amended: on a transport failure `resolve` stores nothing in the cache,
but converts the error into a no-link result itself — empty namespace and
identifier with a `nil` error — rather than returning the error; pass-through
then results from the empty-namespace check in the decision layer, whose
error branch is unreachable. -/
theorem c4_amended_not_cached_error_converted (c : Cache) (ttl : Nat)
    (host : String) (t : Nat) (e : String) :
    resolveMiss c ttl host t (.err e) = ⟨"", "", none, c, true⟩ := rfl

/-- C5: a non-expired cache entry is returned immediately with no DNS call
and the cache untouched; a successful write stamps the entry with
`tWrite + ttl`, `tWrite` being the wall-clock instant of the write; and two
resolutions of the same host, the second strictly within `ttl` of the first
resolution's write instant, never both invoke the DNS collaborator. -/
theorem c5_cache_freshness (c : Cache) (ttl : Nat) (host : String)
    (t1 t2 t3 t4 : Nat) (dns dns2 : DNSOutcome)
    (links : List (String × List String)) (entry : CachedLookup) :
    (cacheLoad c host = some entry → t1 < entry.expiresAt →
      resolveGo c ttl host t1 t2 dns
        = ⟨entry.ns, entry.identifier, none, c, false⟩)
    ∧ cacheLoad (resolveMiss c ttl host t2 (.ok links)).cache host
        = some ⟨(selectLink links).1, (selectLink links).2, t2 + ttl⟩
    ∧ (t3 < t2 + ttl →
        ¬((resolveGo c ttl host t1 t2 (.ok links)).dnsCalled = true
          ∧ (resolveGo (resolveGo c ttl host t1 t2 (.ok links)).cache ttl
              host t3 t4 dns2).dnsCalled = true)) := by
  refine ⟨resolveGo_fresh_hit c ttl host t1 t2 dns entry,
    resolveMiss_ok_cacheLoad c ttl host t2 links, ?_⟩
  rintro httl ⟨h1, h2⟩
  have hload := resolveGo_ok_cacheLoad_of_dnsCalled c ttl host t1 t2 links h1
  have := resolveGo_fresh_hit
    (resolveGo c ttl host t1 t2 (.ok links)).cache ttl host t3 t4 dns2 _
    hload httl
  rw [this] at h2
  simp at h2

/-- Witness for C5: a fresh hit returns the entry with no DNS call; a write
at instant 100 with TTL 60 expires at 160; a second resolution at instant 159
after a first at 100 does not call DNS again. -/
theorem c5_cache_freshness_witness :
    resolveGo [("example.com", ⟨"swarm", "abc123", 50⟩)] 60 "example.com" 49
        49 (.err "timeout")
      = ⟨"swarm", "abc123", none,
          [("example.com", ⟨"swarm", "abc123", 50⟩)], false⟩
    ∧ cacheLoad (resolveMiss [] 60 "example.com" 100
          (.ok [("swarm", ["abc123"])])).cache "example.com"
        = some ⟨"swarm", "abc123", 160⟩
    ∧ ¬((resolveGo [] 60 "example.com" 100 100
          (.ok [("swarm", ["abc123"])])).dnsCalled = true
        ∧ (resolveGo (resolveGo [] 60 "example.com" 100 100
              (.ok [("swarm", ["abc123"])])).cache 60 "example.com" 159 159
            (.err "down")).dnsCalled = true) := by
  refine ⟨?_, ?_, ?_⟩
  · exact (c5_cache_freshness [("example.com", ⟨"swarm", "abc123", 50⟩)] 60
      "example.com" 49 49 159 159 (.err "timeout") (.err "down") []
      ⟨"swarm", "abc123", 50⟩).1 (by decide) (by decide)
  · exact (c5_cache_freshness [] 60 "example.com" 100 100 159 159
      (.err "timeout") (.err "down") [("swarm", ["abc123"])]
      ⟨"swarm", "abc123", 50⟩).2.1
  · exact (c5_cache_freshness [] 60 "example.com" 100 100 159 159
      (.err "timeout") (.err "down") [("swarm", ["abc123"])]
      ⟨"swarm", "abc123", 50⟩).2.2 (by decide)

/-- C8 counterexample: the same resolved link set presented in two different
iteration orders (as the Go map `result.Links` may legitimately do across two
runs) makes the selection loop choose different namespaces, so two runs over
the same input do not always choose the same namespace. -/
theorem c8_counterexample_iteration_order :
    List.Perm [("ipfs", ["QmA"]), ("swarm", ["0xb"])]
      [("swarm", ["0xb"]), ("ipfs", ["QmA"])]
    ∧ selectLink [("ipfs", ["QmA"]), ("swarm", ["0xb"])] = ("ipfs", "QmA")
    ∧ selectLink [("swarm", ["0xb"]), ("ipfs", ["QmA"])] = ("swarm", "0xb")
    ∧ selectLink [("ipfs", ["QmA"]), ("swarm", ["0xb"])]
        ≠ selectLink [("swarm", ["0xb"]), ("ipfs", ["QmA"])] := by
  exact ⟨List.Perm.swap ("swarm", ["0xb"]) ("ipfs", ["QmA"]) [],
    rfl, rfl, by decide⟩

/-- C8 amended: as a function of the iteration order actually presented,
selection is deterministic and order-preserving — the first namespace with at
least one candidate wins together with its first candidate, namespaces
without candidates are skipped, and `resolve` returns exactly the selected
pair; but the iteration order of the Go map `result.Links` is not determined
by the link set, so two runs over the same set may choose differently. -/
theorem c8_amended_first_in_iteration_order (ns id : String)
    (ids : List String) (rest : List (String × List String)) (c : Cache)
    (ttl : Nat) (host : String) (t : Nat)
    (links : List (String × List String)) :
    selectLink ((ns, id :: ids) :: rest) = (ns, id)
    ∧ selectLink ((ns, []) :: rest) = selectLink rest
    ∧ (resolveMiss c ttl host t (.ok links)).ns = (selectLink links).1
    ∧ (resolveMiss c ttl host t (.ok links)).identifier
        = (selectLink links).2 :=
  ⟨rfl, rfl, rfl, rfl⟩

/-- C9: an expired cache entry followed by a failed DNS call leaves no entry
for the host — the expired entry was deleted, nothing was stored — and every
later resolution of that host invokes the DNS collaborator again. -/
theorem c9_expired_entry_gone_on_failure (c : Cache) (ttl : Nat)
    (host : String) (t1 t2 : Nat) (e : String) (entry : CachedLookup)
    (hload : cacheLoad c host = some entry)
    (hexp : ¬ t1 < entry.expiresAt) :
    resolveGo c ttl host t1 t2 (.err e)
      = ⟨"", "", none, cacheDelete c host, true⟩
    ∧ cacheLoad (resolveGo c ttl host t1 t2 (.err e)).cache host = none
    ∧ ∀ t3 t4 dns2,
        (resolveGo (resolveGo c ttl host t1 t2 (.err e)).cache ttl host t3
          t4 dns2).dnsCalled = true := by
  have h1 : resolveGo c ttl host t1 t2 (.err e)
      = ⟨"", "", none, cacheDelete c host, true⟩ := by
    unfold resolveGo
    rw [hload]
    dsimp only
    rw [if_neg hexp]
    rfl
  refine ⟨h1, ?_, ?_⟩
  · rw [h1]
    exact cacheLoad_delete c host
  · intro t3 t4 dns2
    rw [h1]
    show (resolveGo (cacheDelete c host) ttl host t3 t4 dns2).dnsCalled = true
    unfold resolveGo
    rw [cacheLoad_delete]
    exact resolveMiss_dnsCalled _ _ _ _ _

/-- Witness for C9: an entry expired exactly at the check instant is deleted
and a subsequent failure leaves the cache empty for the host. -/
theorem c9_expired_entry_gone_on_failure_witness :
    resolveGo [("stale.example", ⟨"swarm", "old", 50⟩)] 60 "stale.example" 50
        50 (.err "timeout")
      = ⟨"", "", none, [], true⟩
    ∧ cacheLoad (resolveGo [("stale.example", ⟨"swarm", "old", 50⟩)] 60
        "stale.example" 50 50 (.err "timeout")).cache "stale.example" = none
    ∧ (resolveGo (resolveGo [("stale.example", ⟨"swarm", "old", 50⟩)] 60
        "stale.example" 50 50 (.err "timeout")).cache 60 "stale.example" 51
        51 (.ok [("swarm", ["new"])])).dnsCalled = true := by
  have h := c9_expired_entry_gone_on_failure
    [("stale.example", ⟨"swarm", "old", 50⟩)] 60 "stale.example" 50 50
    "timeout" ⟨"swarm", "old", 50⟩ (by decide) (by decide)
  exact ⟨by rw [h.1]; rfl, h.2.1, h.2.2 51 51 (.ok [("swarm", ["new"])])⟩
